import Mathlib

/-!
# Verification of the `byd_vehicle` Home Assistant integration

Shallow embedding of `custom_components/byd_vehicle/{climate,switch,sensor}.py`.

Modelling conventions:
* Python dictionaries are association lists (`List (String × _)`); `d.get(k)` is
  `dget d k : Option _` and `d.get(k, {})` is `(dget d k).getD []`.
* Dynamic Python values are `PyVal` (`None`, `bool`, `int`, `str`); numeric vehicle
  data (temperatures, pressures, …) is modelled with `Int`, which is adequate for
  every operation the code performs on them (`is None` tests and `!=` comparisons).
* A status object stored in a coordinator category map is a `StatusObj`: either a
  genuine `HvacStatus` (the `pybyd` model used by `climate.py`'s `isinstance` check)
  or a generic object carrying named attributes.
* `async` functions are pure functions; an awaited API outcome is an explicit
  `Except String PyVal` argument (`String` is the exception's `str(exc)` message).
  Raising `HomeAssistantError` is returning `Except.error (HAErr.homeAssistantError _)`.
* Functions from `coordinator.py` (not part of the verified sources) are either
  abstract parameters (`expand_metrics`, `extract_raw`, `get_last_remote_result`)
  or modelled from the spec (`BydApi.async_call`).
-/

/-- Dynamic Python value. -/
inductive PyVal where
  | none
  | bool (b : Bool)
  | int (i : Int)
  | str (s : String)
deriving DecidableEq

/-- Python truthiness (`if x:`) for the values we model. -/
def pyTruthy : PyVal → Bool
  | .none => false
  | .bool b => b
  | .int i => !(i == 0)
  | .str s => !(s == "")

/-- `d.get(k)` on an association-list dictionary. -/
def dget {α : Type} (d : List (String × α)) (k : String) : Option α :=
  (d.find? (fun p => p.1 == k)).map (fun p => p.2)

/-- `pybyd.models.hvac.HvacStatus`: the fields read by `climate.py`. -/
structure HvacStatus where
  is_ac_on : Bool
  interior_temp_available : Bool
  temp_in_car : Int
  main_setting_temp_new : Option Int
  main_setting_temp : Option Int
  temp_out_car : PyVal
  front_defrost_status : PyVal
  steering_wheel_heat_state : PyVal
  main_seat_heat_state : PyVal
  main_seat_ventilation_state : PyVal
  copilot_seat_heat_state : PyVal
  copilot_seat_ventilation_state : PyVal
deriving DecidableEq

/-- A value held in a coordinator category map: an `HvacStatus` or any other
object with named attributes (vehicles, realtime/energy/charging statuses, …). -/
inductive StatusObj where
  | hvac (h : HvacStatus)
  | obj (attrs : List (String × PyVal))
deriving DecidableEq

def optIntVal : Option Int → PyVal
  | some i => .int i
  | Option.none => .none

/-- `getattr(o, name, default)`.  On an `HvacStatus` the modelled attributes are
its fields; on a generic object they are its attribute list. -/
def getattrD : StatusObj → String → PyVal → PyVal
  | .hvac h, name, d =>
      if name == "is_ac_on" then .bool h.is_ac_on
      else if name == "interior_temp_available" then .bool h.interior_temp_available
      else if name == "temp_in_car" then .int h.temp_in_car
      else if name == "main_setting_temp_new" then optIntVal h.main_setting_temp_new
      else if name == "main_setting_temp" then optIntVal h.main_setting_temp
      else if name == "temp_out_car" then h.temp_out_car
      else if name == "front_defrost_status" then h.front_defrost_status
      else if name == "steering_wheel_heat_state" then h.steering_wheel_heat_state
      else if name == "main_seat_heat_state" then h.main_seat_heat_state
      else if name == "main_seat_ventilation_state" then h.main_seat_ventilation_state
      else if name == "copilot_seat_heat_state" then h.copilot_seat_heat_state
      else if name == "copilot_seat_ventilation_state" then h.copilot_seat_ventilation_state
      else d
  | .obj attrs, name, d => (dget attrs name).getD d

/-- One VIN-keyed category map of `coordinator.data`. -/
abbrev VinMap := List (String × StatusObj)

/-- `coordinator.data`: maps category keys (`"vehicles"`, `"realtime"`, `"energy"`,
`"hvac"`, `"charging"`) to VIN-keyed maps.  Any key may be absent. -/
abbrev CoordData := List (String × VinMap)

/-- `self.coordinator.data.get(key, {})`. -/
def coordGet (d : CoordData) (k : String) : VinMap :=
  (dget d k).getD []

/-- `homeassistant.components.climate.const.HVACMode` (the two modes used). -/
inductive HVACMode where
  | off
  | heat_cool
deriving DecidableEq

/-- `homeassistant.exceptions.HomeAssistantError` carrying its message. -/
inductive HAErr where
  | homeAssistantError (msg : String)
deriving DecidableEq

/-- Modelled from the spec: `BydApi.async_call` lives in `coordinator.py`, which is
not among the verified sources.  Per the spec ("no retry or recovery logic is
implemented locally") it invokes the underlying per-command coroutine exactly once
and propagates its outcome.  The outcome of that single underlying invocation is
the `outcome` argument; the call counter records how many times the underlying
API call was made. -/
def BydApi.async_call (outcome : Except String PyVal) (calls : Nat) :
    Except String PyVal × Nat :=
  (outcome, calls + 1)

/-! ## `climate.py` -/

/-- The mutable/identifying fields of a `BydClimate` entity
(`_vin`, `_last_mode`, `_last_command`; the `_vehicle` payload is only used for
display names and device info, which no claim touches). -/
structure ClimateFields where
  vin : String
  last_mode : HVACMode
  last_command : Option String
deriving DecidableEq

namespace BydClimate

/-- `BydClimate.__init__`: per-vehicle construction state. -/
def init (vin : String) : ClimateFields :=
  { vin := vin, last_mode := HVACMode.off, last_command := Option.none }

/-- `climate.async_setup_entry`: one `BydClimate` per entry of
`coordinator.data.get("vehicles", {})`. -/
def async_setup_entry (d : CoordData) : List ClimateFields :=
  (coordGet d "vehicles").map (fun p => init p.1)

/-- `BydClimate._attr_unique_id = f"{vin}_climate"`. -/
def unique_id (vin : String) : String := vin ++ "_climate"

/-- `BydClimate._get_hvac_status`. -/
def get_hvac_status (d : CoordData) (vin : String) : Option HvacStatus :=
  match dget (coordGet d "hvac") vin with
  | some (StatusObj.hvac h) => some h
  | _ => Option.none

/-- `BydClimate.hvac_mode` (read-only property; the returned `CoordData` is the
coordinator data after the read, for the frame-effect claim). -/
def hvac_mode (st : ClimateFields) (d : CoordData) : HVACMode × CoordData :=
  (match get_hvac_status d st.vin with
   | some h => if h.is_ac_on then HVACMode.heat_cool else HVACMode.off
   | Option.none => st.last_mode, d)

/-- `BydClimate.current_temperature`. -/
def current_temperature (st : ClimateFields) (d : CoordData) : PyVal × CoordData :=
  (match get_hvac_status d st.vin with
   | some h =>
     if h.interior_temp_available then .int h.temp_in_car
     else
       match dget (coordGet d "realtime") st.vin with
       | some rt =>
         let temp := getattrD rt "temp_in_car" .none
         if temp ≠ .none ∧ temp ≠ .int (-129) then temp else .none
       | Option.none => .none
   | Option.none =>
     match dget (coordGet d "realtime") st.vin with
     | some rt =>
       let temp := getattrD rt "temp_in_car" .none
       if temp ≠ .none ∧ temp ≠ .int (-129) then temp else .none
     | Option.none => .none, d)

/-- `BydClimate.target_temperature` (`float(...)` on the modelled `Int` is the
identity). -/
def target_temperature (st : ClimateFields) (d : CoordData) : PyVal × CoordData :=
  (match get_hvac_status d st.vin with
   | some h =>
     match h.main_setting_temp_new with
     | some t => .int t
     | Option.none =>
       match h.main_setting_temp with
       | some t => .int t
       | Option.none => .none
   | Option.none => .none, d)

/-- `BydClimate.async_set_hvac_mode`.  `outcome` is the result of the single
underlying `stop_climate`/`start_climate` invocation made through
`BydApi.async_call`; returns (entity fields, raised/returned result, call count). -/
def async_set_hvac_mode (st : ClimateFields) (mode : HVACMode)
    (outcome : Except String PyVal) (calls : Nat) :
    ClimateFields × Except HAErr Unit × Nat :=
  let cmd := if mode = HVACMode.off then "stop_climate" else "start_climate"
  let st1 := { st with last_command := some cmd }
  let r := BydApi.async_call outcome calls
  match r.1 with
  | .error e => (st1, .error (HAErr.homeAssistantError e), r.2)
  | .ok _ => ({ st1 with last_mode := mode }, .ok (), r.2)

/-- `BydClimate.extra_state_attributes`.  `lastResult` is
`BydApi.get_last_remote_result` (coordinator code, abstract here); `PyVal.none`
plays Python's `None`. -/
def extra_state_attributes (lastResult : String → String → PyVal)
    (st : ClimateFields) (d : CoordData) : List (String × PyVal) × CoordData :=
  let attrs : List (String × PyVal) := [("vin", .str st.vin)]
  let attrs :=
    match get_hvac_status d st.vin with
    | some h => attrs ++
        [("temp_out_car", h.temp_out_car),
         ("front_defrost", h.front_defrost_status),
         ("steering_wheel_heat", h.steering_wheel_heat_state),
         ("main_seat_heat", h.main_seat_heat_state),
         ("main_seat_ventilation", h.main_seat_ventilation_state),
         ("copilot_seat_heat", h.copilot_seat_heat_state),
         ("copilot_seat_ventilation", h.copilot_seat_ventilation_state)]
    | Option.none => attrs
  let attrs :=
    match st.last_command with
    | some c =>
      if c ≠ "" then
        let attrs := attrs ++ [("last_remote_command", .str c)]
        let last_result := lastResult st.vin c
        if pyTruthy last_result then attrs ++ [("last_remote_result", last_result)]
        else attrs
      else attrs
    | Option.none => attrs
  (attrs, d)

end BydClimate

/-! ## `switch.py` -/

/-- The fields of a `BydMomentarySwitch` (`_vin`, `_command`; `_vehicle` as for
`ClimateFields`). -/
structure SwitchFields where
  vin : String
  command : String
deriving DecidableEq

/-- The four commands instantiated by `switch.async_setup_entry`. -/
def SWITCH_COMMANDS : List String :=
  ["flash_lights", "honk_horn", "open_trunk", "close_windows"]

namespace BydMomentarySwitch

/-- `switch.async_setup_entry`: four momentary switches per vehicle. -/
def async_setup_entry (d : CoordData) : List SwitchFields :=
  (coordGet d "vehicles").flatMap (fun p =>
    [{ vin := p.1, command := "flash_lights" },
     { vin := p.1, command := "honk_horn" },
     { vin := p.1, command := "open_trunk" },
     { vin := p.1, command := "close_windows" }])

/-- `BydMomentarySwitch._attr_unique_id = f"{vin}_{command}"`. -/
def unique_id (vin command : String) : String := vin ++ "_" ++ command

/-- `BydMomentarySwitch.is_on`: unconditionally `False`. -/
def is_on (_sw : SwitchFields) : Bool := false

/-- `BydMomentarySwitch.async_turn_on`. `clientCmds` are the method names the API
client object exposes (`getattr(client, command, None)`); `outcome` is the result
of the underlying method invocation when it exists.  A missing method raises
`HomeAssistantError(f"Unknown command: …")` inside the call, which the generic
handler re-wraps with the same message (`str` of a `HomeAssistantError` is its
message). -/
def async_turn_on (clientCmds : List String) (outcome : Except String PyVal)
    (sw : SwitchFields) (calls : Nat) : SwitchFields × Except HAErr Unit × Nat :=
  let inner : Except String PyVal :=
    if clientCmds.contains sw.command then outcome
    else .error ("Unknown command: " ++ sw.command)
  let r := BydApi.async_call inner calls
  match r.1 with
  | .error e => (sw, .error (HAErr.homeAssistantError e), r.2)
  | .ok _ => (sw, .ok (), r.2)

/-- `BydMomentarySwitch.async_turn_off`: only `async_write_ha_state()` (a host
callback); no API call, no field change. -/
def async_turn_off (sw : SwitchFields) (calls : Nat) :
    SwitchFields × Except HAErr Unit × Nat :=
  (sw, .ok (), calls)

/-- `BydMomentarySwitch.extra_state_attributes`. -/
def extra_state_attributes (lastResult : String → String → PyVal)
    (sw : SwitchFields) (d : CoordData) : List (String × PyVal) × CoordData :=
  let attrs : List (String × PyVal) :=
    [("vin", .str sw.vin), ("command", .str sw.command)]
  let last_result := lastResult sw.vin sw.command
  (if pyTruthy last_result then attrs ++ [("last_remote_result", last_result)]
   else attrs, d)

end BydMomentarySwitch

/-! ## `sensor.py` -/

/-- `needle` is a prefix of `hay` (character lists). -/
def listPrefixB : List Char → List Char → Bool
  | [], _ => true
  | _ :: _, [] => false
  | a :: as, b :: bs => a == b && listPrefixB as bs

/-- `needle` occurs inside `hay` (character lists). -/
def listInfixB (needle : List Char) : List Char → Bool
  | [] => needle.isEmpty
  | c :: cs => listPrefixB needle (c :: cs) || listInfixB needle cs

/-- Python's substring test `needle in hay`. -/
def substrB (needle hay : String) : Bool := listInfixB needle.data hay.data

/-- `_UNIT_HINTS` (module-level dict of `sensor.py`, in insertion order; the
Home Assistant `PERCENTAGE` constant is the string `"%"`). -/
def UNIT_HINTS : List (String × String) :=
  [("percent", "%"),
   ("mileage", "km"),
   ("endurance", "km"),
   ("speed", "km/h"),
   ("temp", "C"),
   ("pressure", "bar"),
   ("direction", "deg")]

/-- `BydSensorDescription` (device/state classes and units are the string values
of the Home Assistant constants used in the source). -/
structure BydSensorDescription where
  key : String
  name : String
  source_key : String
  category : String
  unit : Option String
  device_class : Option String
  state_class : Option String
deriving DecidableEq

/-- `EXPLICIT_SENSORS`: the seventeen statically described sensors. -/
def EXPLICIT_SENSORS : List BydSensorDescription :=
  [{ key := "elec_percent", name := "Battery", source_key := "realtime",
     category := "realtime", unit := some "%", device_class := some "battery",
     state_class := some "measurement" },
   { key := "endurance_mileage", name := "Range", source_key := "realtime",
     category := "realtime", unit := some "km", device_class := some "distance",
     state_class := some "measurement" },
   { key := "total_mileage", name := "Odometer", source_key := "realtime",
     category := "realtime", unit := some "km", device_class := some "distance",
     state_class := some "measurement" },
   { key := "speed", name := "Speed", source_key := "realtime",
     category := "realtime", unit := some "km/h", device_class := some "speed",
     state_class := some "measurement" },
   { key := "temp_in_car", name := "Cabin temperature", source_key := "realtime",
     category := "realtime", unit := some "°C", device_class := some "temperature",
     state_class := some "measurement" },
   { key := "left_front_tire_pressure", name := "Left front tire pressure",
     source_key := "realtime", category := "realtime", unit := some "bar",
     device_class := some "pressure", state_class := some "measurement" },
   { key := "right_front_tire_pressure", name := "Right front tire pressure",
     source_key := "realtime", category := "realtime", unit := some "bar",
     device_class := some "pressure", state_class := some "measurement" },
   { key := "left_rear_tire_pressure", name := "Left rear tire pressure",
     source_key := "realtime", category := "realtime", unit := some "bar",
     device_class := some "pressure", state_class := some "measurement" },
   { key := "right_rear_tire_pressure", name := "Right rear tire pressure",
     source_key := "realtime", category := "realtime", unit := some "bar",
     device_class := some "pressure", state_class := some "measurement" },
   { key := "total_energy", name := "Total energy", source_key := "energy",
     category := "energy", unit := Option.none, device_class := Option.none,
     state_class := Option.none },
   { key := "avg_energy_consumption", name := "Average energy consumption",
     source_key := "energy", category := "energy", unit := Option.none,
     device_class := Option.none, state_class := Option.none },
   { key := "electricity_consumption", name := "Electricity consumption",
     source_key := "energy", category := "energy", unit := Option.none,
     device_class := Option.none, state_class := Option.none },
   { key := "fuel_consumption", name := "Fuel consumption", source_key := "energy",
     category := "energy", unit := Option.none, device_class := Option.none,
     state_class := Option.none },
   { key := "soc", name := "Charging SOC", source_key := "charging",
     category := "charging", unit := some "%", device_class := some "battery",
     state_class := some "measurement" },
   { key := "charging_state", name := "Charging state", source_key := "charging",
     category := "charging", unit := Option.none, device_class := Option.none,
     state_class := Option.none },
   { key := "connect_state", name := "Charger connection", source_key := "charging",
     category := "charging", unit := Option.none, device_class := Option.none,
     state_class := Option.none },
   { key := "ac_switch", name := "AC switch", source_key := "hvac",
     category := "hvac", unit := Option.none, device_class := Option.none,
     state_class := Option.none },
   { key := "temp_out_car", name := "Exterior temperature", source_key := "hvac",
     category := "hvac", unit := some "°C", device_class := some "temperature",
     state_class := some "measurement" }]

/-- `EXPLICIT_FIELDS_BY_SOURCE` (sets modelled as lists of keys). -/
def EXPLICIT_FIELDS_BY_SOURCE : List (String × List String) :=
  [("realtime",
    ((EXPLICIT_SENSORS.filter (fun dsc => dsc.source_key == "realtime")).map
      (fun dsc => dsc.key))),
   ("energy",
    ((EXPLICIT_SENSORS.filter (fun dsc => dsc.source_key == "energy")).map
      (fun dsc => dsc.key))),
   ("hvac",
    ((EXPLICIT_SENSORS.filter (fun dsc => dsc.source_key == "hvac")).map
      (fun dsc => dsc.key))),
   ("charging",
    ((EXPLICIT_SENSORS.filter (fun dsc => dsc.source_key == "charging")).map
      (fun dsc => dsc.key))),
   ("vehicle", [])]

/-- `EXPLICIT_FIELDS_BY_SOURCE.get(source_key, set())`. -/
def explicitFieldsOf (source_key : String) : List String :=
  (dget EXPLICIT_FIELDS_BY_SOURCE source_key).getD []

/-- Identifying fields of a `BydTelemetrySensor` (`_vin`, `entity_description`). -/
structure TelemetrySensorFields where
  vin : String
  description : BydSensorDescription
deriving DecidableEq

/-- Identifying fields of a `BydMetricSensor`
(`_vin`, `_category`, `_field`, `_source_key`). -/
structure MetricSensorFields where
  vin : String
  category : String
  field : String
  source_key : String
deriving DecidableEq

/-- An entity created by `sensor.async_setup_entry`. -/
inductive SensorEntity where
  | telemetry (st : TelemetrySensorFields)
  | metric (st : MetricSensorFields)
deriving DecidableEq

/-- The `(category, source_key, source)` tuples iterated in
`sensor.async_setup_entry`. -/
def sensorSources (d : CoordData) : List (String × String × VinMap) :=
  [("vehicle", "vehicle", coordGet d "vehicles"),
   ("realtime", "realtime", coordGet d "realtime"),
   ("energy", "energy", coordGet d "energy"),
   ("hvac", "hvac", coordGet d "hvac"),
   ("charging", "charging", coordGet d "charging")]

/-- The dynamically discovered metric names for one VIN and one source:
`expand_metrics(source.get(vin)) if source.get(vin) is not None else {}`,
iterated over its keys.  `em` is `expand_metrics` (coordinator code, abstract;
per the spec it reflects over the status object's fields). -/
def metricFieldNames (em : StatusObj → List (String × PyVal))
    (source : VinMap) (vin : String) : List String :=
  match dget source vin with
  | some o => (em o).map (fun p => p.1)
  | Option.none => []

/-- `sensor.async_setup_entry`.  (No description has `source_key == "gps"`, so the
GPS-coordinator selection in the source never picks the other coordinator; the
coordinator choice does not affect the entities constructed.) -/
def sensor_async_setup_entry (em : StatusObj → List (String × PyVal))
    (d : CoordData) : List SensorEntity :=
  let vehicle_map := coordGet d "vehicles"
  vehicle_map.flatMap (fun p =>
    (EXPLICIT_SENSORS.map (fun dsc =>
      SensorEntity.telemetry { vin := p.1, description := dsc }))
    ++ ((sensorSources d).flatMap (fun t =>
        ((metricFieldNames em t.2.2 p.1).filter
            (fun field => !((explicitFieldsOf t.2.1).contains field))).map
          (fun field => SensorEntity.metric
            { vin := p.1, category := t.1, field := field, source_key := t.2.1 }))))

namespace BydTelemetrySensor

/-- `BydTelemetrySensor._attr_unique_id = f"{vin}_{source_key}_{key}"`. -/
def unique_id (st : TelemetrySensorFields) : String :=
  st.vin ++ "_" ++ st.description.source_key ++ "_" ++ st.description.key

/-- `BydTelemetrySensor.native_value`. -/
def native_value (em : StatusObj → List (String × PyVal))
    (st : TelemetrySensorFields) (d : CoordData) : PyVal × CoordData :=
  let source :=
    if st.description.source_key == "vehicle" then coordGet d "vehicles"
    else coordGet d st.description.source_key
  (match dget source st.vin with
   | some o => (dget (em o) st.description.key).getD .none
   | Option.none => .none, d)

/-- `BydTelemetrySensor.extra_state_attributes`. -/
def extra_state_attributes (st : TelemetrySensorFields) (d : CoordData) :
    List (String × PyVal) × CoordData :=
  ([("vin", .str st.vin),
    ("category", .str st.description.category),
    ("field", .str st.description.key)], d)

end BydTelemetrySensor

namespace BydMetricSensor

/-- `BydMetricSensor._attr_unique_id = f"{vin}_{category}_{field}"`. -/
def unique_id (st : MetricSensorFields) : String :=
  st.vin ++ "_" ++ st.category ++ "_" ++ st.field

/-- `BydMetricSensor.native_value`. -/
def native_value (em : StatusObj → List (String × PyVal))
    (st : MetricSensorFields) (d : CoordData) : PyVal × CoordData :=
  let source :=
    if st.source_key == "vehicle" then coordGet d "vehicles"
    else coordGet d st.source_key
  (match dget source st.vin with
   | some o => (dget (em o) st.field).getD .none
   | Option.none => .none, d)

/-- The `for hint, unit in _UNIT_HINTS.items(): …` loop of
`BydMetricSensor.native_unit_of_measurement`. -/
def unitFromHints : List (String × String) → String → Option String
  | [], _ => Option.none
  | (h, u) :: rest, field =>
    if substrB h field then some u else unitFromHints rest field

/-- `BydMetricSensor.native_unit_of_measurement`. -/
def native_unit_of_measurement (st : MetricSensorFields) : Option String :=
  unitFromHints UNIT_HINTS st.field

/-- `BydMetricSensor.extra_state_attributes`.  `extractRaw` is
`coordinator.extract_raw` (abstract; its result is only truthiness-tested and
stored). -/
def extra_state_attributes (extractRaw : StatusObj → PyVal)
    (st : MetricSensorFields) (d : CoordData) : List (String × PyVal) × CoordData :=
  let source :=
    if st.source_key == "vehicle" then coordGet d "vehicles"
    else coordGet d st.source_key
  let raw :=
    match dget source st.vin with
    | some o => extractRaw o
    | Option.none => .none
  let attrs : List (String × PyVal) :=
    [("vin", .str st.vin), ("category", .str st.category), ("field", .str st.field)]
  (if pyTruthy raw then attrs ++ [("raw", raw)] else attrs, d)

end BydMetricSensor

/-- The unique id of a sensor-platform entity. -/
def sensorUniqueId : SensorEntity → String
  | .telemetry st => BydTelemetrySensor.unique_id st
  | .metric st => BydMetricSensor.unique_id st

/-- All unique ids created in one setup pass across the three platforms. -/
def allUniqueIds (em : StatusObj → List (String × PyVal)) (d : CoordData) :
    List String :=
  (BydClimate.async_setup_entry d).map (fun c => BydClimate.unique_id c.vin)
  ++ (BydMomentarySwitch.async_setup_entry d).map
      (fun s => BydMomentarySwitch.unique_id s.vin s.command)
  ++ (sensor_async_setup_entry em d).map sensorUniqueId

/-- The hint names in the order the claim lists them. -/
def specUnitHintOrder : List String :=
  ["percent", "mileage", "endurance", "speed", "temp", "pressure", "direction"]

/-- The unit of a dynamically discovered sensor as the claim words it: the unit
mapped (by `_UNIT_HINTS`) to the first hint in that order whose name occurs as a
substring of the field name, and `none` when no hint occurs. -/
def firstMatchingHintUnit (field : String) : Option String :=
  match specUnitHintOrder.find? (fun h => substrB h field) with
  | some h => dget UNIT_HINTS h
  | Option.none => Option.none

/-- Splits a character list at its first underscore (chars before, chars after). -/
def breakU : List Char → List Char × Option (List Char)
  | [] => ([], Option.none)
  | c :: cs =>
    if c = '_' then ([], some cs)
    else
      let r := breakU cs
      (c :: r.1, r.2)

/-- Splits a string at its first underscore, `none` when it has no underscore. -/
def splitU (s : String) : Option (String × String) :=
  match breakU s.data with
  | (before, some after) => some (String.mk before, String.mk after)
  | (_, Option.none) => Option.none

/-- The string contains no underscore. -/
abbrev noU (s : String) : Prop := '_' ∉ s.data

/-- The VIN stored in a sensor-platform entity. -/
def sensorEntityVin : SensorEntity → String
  | .telemetry st => st.vin
  | .metric st => st.vin

/-- An entity created during one setup pass, tagged by platform. -/
inductive PlatformEntity where
  | clim (c : ClimateFields)
  | sw (s : SwitchFields)
  | sen (e : SensorEntity)
deriving DecidableEq

/-- The unique id of an entity of any platform. -/
def entityUniqueId : PlatformEntity → String
  | .clim c => BydClimate.unique_id c.vin
  | .sw s => BydMomentarySwitch.unique_id s.vin s.command
  | .sen e => sensorUniqueId e

/-- All entities created in one setup pass across the three platforms. -/
def allEntities (em : StatusObj → List (String × PyVal)) (d : CoordData) :
    List PlatformEntity :=
  (BydClimate.async_setup_entry d).map PlatformEntity.clim
  ++ (BydMomentarySwitch.async_setup_entry d).map PlatformEntity.sw
  ++ (sensor_async_setup_entry em d).map PlatformEntity.sen

/-- A snapshot with two distinct VINs, one of which extends the other by
`_hvac`, and one discoverable hvac field named `realtime_speed`. -/
def cexData : CoordData :=
  [("vehicles", [("A", StatusObj.obj []), ("A_hvac", StatusObj.obj [])]),
   ("hvac", [("A", StatusObj.obj [("realtime_speed", PyVal.int 0)])])]

/-- An `expand_metrics` that reflects a generic object's own attributes, as the
spec describes ("discovered dynamically via reflection over the status object's
fields"). -/
def cexEm : StatusObj → List (String × PyVal)
  | .obj attrs => attrs
  | .hvac _ => []

/-! ## Claims -/

/-- C1: every exception raised by the API call inside
`BydClimate.async_set_hvac_mode` or `BydMomentarySwitch.async_turn_on` is caught
and a `HomeAssistantError` carrying the original exception's message is raised in
its place; no retry is attempted, so the underlying API call is invoked exactly
once per command (the call counter rises by exactly one in every case). -/
theorem claim_C1 :
    (∀ (st : ClimateFields) (mode : HVACMode) (outcome : Except String PyVal)
       (calls : Nat),
      (BydClimate.async_set_hvac_mode st mode outcome calls).2.2 = calls + 1 ∧
      ∀ e, outcome = .error e →
        (BydClimate.async_set_hvac_mode st mode outcome calls).2.1 =
          .error (HAErr.homeAssistantError e)) ∧
    (∀ (clientCmds : List String) (sw : SwitchFields) (outcome : Except String PyVal)
       (calls : Nat),
      (BydMomentarySwitch.async_turn_on clientCmds outcome sw calls).2.2 = calls + 1 ∧
      (clientCmds.contains sw.command = true →
        ∀ e, outcome = .error e →
          (BydMomentarySwitch.async_turn_on clientCmds outcome sw calls).2.1 =
            .error (HAErr.homeAssistantError e)) ∧
      (clientCmds.contains sw.command = false →
        (BydMomentarySwitch.async_turn_on clientCmds outcome sw calls).2.1 =
          .error (HAErr.homeAssistantError ("Unknown command: " ++ sw.command)))) := by
  constructor
  · intro st mode outcome calls
    constructor
    · cases outcome <;> rfl
    · intro e he
      subst he
      rfl
  · intro clientCmds sw outcome calls
    refine ⟨?_, ?_, ?_⟩
    · simp only [BydMomentarySwitch.async_turn_on, BydApi.async_call]
      cases hc : clientCmds.contains sw.command
      · cases outcome <;> rfl
      · cases outcome <;> rfl
    · intro hc e he
      subst he
      simp only [BydMomentarySwitch.async_turn_on, BydApi.async_call, hc, if_true]
    · intro hc
      simp only [BydMomentarySwitch.async_turn_on, BydApi.async_call, hc,
        Bool.false_eq_true, if_false]

/-- Witness for C1 at concrete inputs. -/
theorem claim_C1_witness :
    (BydClimate.async_set_hvac_mode (BydClimate.init "V1") HVACMode.off
        (.error "boom") 0).2.1 = .error (HAErr.homeAssistantError "boom") ∧
    (BydMomentarySwitch.async_turn_on ["honk_horn"]
        (.error "boom") { vin := "V1", command := "honk_horn" } 0).2.1 =
      .error (HAErr.homeAssistantError "boom") ∧
    (BydMomentarySwitch.async_turn_on ["honk_horn"]
        (.ok .none) { vin := "V1", command := "open_trunk" } 0).2.1 =
      .error (HAErr.homeAssistantError "Unknown command: open_trunk") := by
  refine ⟨(claim_C1.1 (BydClimate.init "V1") HVACMode.off (.error "boom") 0).2
    "boom" rfl, ?_, ?_⟩
  · exact ((claim_C1.2 ["honk_horn"] { vin := "V1", command := "honk_horn" }
      (.error "boom") 0).2.1 (by decide) "boom" rfl)
  · exact ((claim_C1.2 ["honk_horn"] { vin := "V1", command := "open_trunk" }
      (.ok .none) 0).2.2 (by decide))

/-- C9: if the API call inside `async_set_hvac_mode` raises, `_last_mode` keeps
its previous value while `_last_command` already names the attempted command
(`"stop_climate"` for `HVACMode.OFF`, `"start_climate"` otherwise); on success
both fields reflect the new command and mode. -/
theorem claim_C9 :
    ∀ (st : ClimateFields) (mode : HVACMode) (outcome : Except String PyVal)
      (calls : Nat),
      ((BydClimate.async_set_hvac_mode st mode outcome calls).1.last_command =
        some (if mode = HVACMode.off then "stop_climate" else "start_climate")) ∧
      (∀ e, outcome = .error e →
        (BydClimate.async_set_hvac_mode st mode outcome calls).1.last_mode =
          st.last_mode) ∧
      (∀ v, outcome = .ok v →
        (BydClimate.async_set_hvac_mode st mode outcome calls).1.last_mode = mode) := by
  intro st mode outcome calls
  refine ⟨?_, ?_, ?_⟩
  · cases outcome <;> rfl
  · intro e he
    subst he
    rfl
  · intro v hv
    subst hv
    rfl

/-- Witness for C9: failed stop command at a concrete state. -/
theorem claim_C9_witness :
    (BydClimate.async_set_hvac_mode
        (ClimateFields.mk "V1" HVACMode.heat_cool Option.none)
        HVACMode.off (.error "boom") 0).1.last_command = some "stop_climate" ∧
    (BydClimate.async_set_hvac_mode
        (ClimateFields.mk "V1" HVACMode.heat_cool Option.none)
        HVACMode.off (.error "boom") 0).1.last_mode = HVACMode.heat_cool := by
  constructor
  · exact (claim_C9 (ClimateFields.mk "V1" HVACMode.heat_cool Option.none)
      HVACMode.off (.error "boom") 0).1
  · exact (claim_C9 (ClimateFields.mk "V1" HVACMode.heat_cool Option.none)
      HVACMode.off (.error "boom") 0).2.1 "boom" rfl

/-- C10: `BydMomentarySwitch.is_on` is `False` in every state — also for the
entity state produced by any `async_turn_on` — and `async_turn_off` makes no API
call (call counter unchanged) and changes no entity field. -/
theorem claim_C10 :
    ∀ (sw : SwitchFields),
      BydMomentarySwitch.is_on sw = false ∧
      (∀ (clientCmds : List String) (outcome : Except String PyVal) (calls : Nat),
        BydMomentarySwitch.is_on
          (BydMomentarySwitch.async_turn_on clientCmds outcome sw calls).1 = false ∧
        (BydMomentarySwitch.async_turn_on clientCmds outcome sw calls).1 = sw) ∧
      (∀ calls : Nat,
        BydMomentarySwitch.async_turn_off sw calls = (sw, .ok (), calls)) := by
  intro sw
  refine ⟨rfl, ?_, fun _ => rfl⟩
  intro clientCmds outcome calls
  constructor
  · rfl
  · simp only [BydMomentarySwitch.async_turn_on, BydApi.async_call]
    cases hc : clientCmds.contains sw.command <;> cases outcome <;> simp

/-- C3: every read-only property leaves the coordinator's data (and the status
objects it contains) unchanged, and the value is recomputed from the current
data on each read: re-reading over the data returned by a first read yields the
same value. -/
theorem claim_C3 :
    ∀ (em : StatusObj → List (String × PyVal)) (extractRaw : StatusObj → PyVal)
      (lastResult : String → String → PyVal) (d : CoordData)
      (stc : ClimateFields) (sw : SwitchFields) (stt : TelemetrySensorFields)
      (stm : MetricSensorFields),
      (BydClimate.hvac_mode stc d).2 = d ∧
      (BydClimate.current_temperature stc d).2 = d ∧
      (BydClimate.target_temperature stc d).2 = d ∧
      (BydClimate.extra_state_attributes lastResult stc d).2 = d ∧
      (BydMomentarySwitch.extra_state_attributes lastResult sw d).2 = d ∧
      (BydTelemetrySensor.native_value em stt d).2 = d ∧
      (BydTelemetrySensor.extra_state_attributes stt d).2 = d ∧
      (BydMetricSensor.native_value em stm d).2 = d ∧
      (BydMetricSensor.extra_state_attributes extractRaw stm d).2 = d ∧
      (BydTelemetrySensor.native_value em stt
          (BydTelemetrySensor.native_value em stt d).2).1 =
        (BydTelemetrySensor.native_value em stt d).1 ∧
      (BydMetricSensor.native_value em stm
          (BydMetricSensor.native_value em stm d).2).1 =
        (BydMetricSensor.native_value em stm d).1 ∧
      (BydClimate.hvac_mode stc (BydClimate.hvac_mode stc d).2).1 =
        (BydClimate.hvac_mode stc d).1 := by
  intro em extractRaw lastResult d stc sw stt stm
  exact ⟨rfl, rfl, rfl, rfl, rfl, rfl, rfl, rfl, rfl, rfl, rfl, rfl⟩

/-- Association-list lookup returns the value of a member pair when keys are
distinct. -/
theorem dget_eq_of_mem {α : Type} {l : List (String × α)} {h : String} {u : α}
    (hnd : (l.map (fun p => p.1)).Nodup) (hm : (h, u) ∈ l) : dget l h = some u := by
  induction l with
  | nil => cases hm
  | cons p rest ih =>
    simp only [List.map_cons, List.nodup_cons] at hnd
    rcases List.mem_cons.mp hm with he | hr
    · subst he
      simp [dget, List.find?_cons_of_pos]
    · by_cases hk : p.1 = h
      · exact absurd (hk ▸ (List.mem_map.mpr ⟨(h, u), hr, rfl⟩)) hnd.1
      · have : dget rest h = some u := ih hnd.2 hr
        simpa [dget, List.find?_cons_of_neg, hk] using this

/-- The hint loop of `native_unit_of_measurement` returns the unit of the first
matching pair. -/
theorem unitFromHints_eq_find (l : List (String × String)) (f : String) :
    BydMetricSensor.unitFromHints l f =
      (l.find? (fun p => substrB p.1 f)).map (fun p => p.2) := by
  induction l with
  | nil => rfl
  | cons p rest ih =>
    obtain ⟨h, u⟩ := p
    by_cases hs : substrB h f
    · simp [BydMetricSensor.unitFromHints, hs, List.find?_cons_of_pos]
    · simp [BydMetricSensor.unitFromHints, hs, List.find?_cons_of_neg, ih]

/-- C2: `BydMetricSensor.native_unit_of_measurement` returns the unit mapped to
the first hint in `_UNIT_HINTS` order (`percent`, `mileage`, `endurance`,
`speed`, `temp`, `pressure`, `direction`) occurring as a substring of the field
name, and `none` when no hint occurs. -/
theorem claim_C2 (st : MetricSensorFields) :
    BydMetricSensor.native_unit_of_measurement st = firstMatchingHintUnit st.field ∧
    UNIT_HINTS.map (fun p => p.1) = specUnitHintOrder := by
  refine ⟨?_, by decide⟩
  have horder : specUnitHintOrder = UNIT_HINTS.map (fun p => p.1) := by decide
  rw [BydMetricSensor.native_unit_of_measurement, unitFromHints_eq_find,
    firstMatchingHintUnit, horder, List.find?_map]
  cases hf : UNIT_HINTS.find? ((fun h => substrB h st.field) ∘ fun p => p.1) with
  | none =>
    have : UNIT_HINTS.find? (fun p => substrB p.1 st.field) = Option.none := hf
    simp [this]
  | some p =>
    have hmem : p ∈ UNIT_HINTS := List.mem_of_find?_eq_some hf
    have : UNIT_HINTS.find? (fun p => substrB p.1 st.field) = some p := hf
    simp only [this, Option.map_some]
    exact (dget_eq_of_mem (by decide) (by
      obtain ⟨a, b⟩ := p
      exact hmem)).symm

/-- C4: a command entity's `extra_state_attributes` contains
`"last_remote_result"` bound to `api.get_last_remote_result(vin, command)`
exactly when that lookup is truthy — for every switch, and for the climate
entity once a climate command has been issued (`_last_command` truthy). -/
theorem claim_C4 (lastResult : String → String → PyVal) (sw : SwitchFields)
    (stc : ClimateFields) (d : CoordData) :
    (dget (BydMomentarySwitch.extra_state_attributes lastResult sw d).1
        "last_remote_result" =
      if pyTruthy (lastResult sw.vin sw.command) then
        some (lastResult sw.vin sw.command)
      else Option.none) ∧
    (∀ c, stc.last_command = some c → c ≠ "" →
      dget (BydClimate.extra_state_attributes lastResult stc d).1
          "last_remote_result" =
        if pyTruthy (lastResult stc.vin c) then some (lastResult stc.vin c)
        else Option.none) := by
  constructor
  · cases ht : pyTruthy (lastResult sw.vin sw.command) <;>
      simp [BydMomentarySwitch.extra_state_attributes, ht, dget]
  · intro c hc hne
    cases hh : BydClimate.get_hvac_status d stc.vin <;>
      cases ht : pyTruthy (lastResult stc.vin c) <;>
        simp [BydClimate.extra_state_attributes, hc, hh, ht, hne, dget]

/-- Witness for C4's climate clause at a concrete entity state. -/
theorem claim_C4_witness :
    dget (BydClimate.extra_state_attributes (fun _ _ => PyVal.str "ok")
        (ClimateFields.mk "V1" HVACMode.off (some "start_climate")) []).1
      "last_remote_result" = some (PyVal.str "ok") := by
  have h := (claim_C4 (fun _ _ => PyVal.str "ok")
    (SwitchFields.mk "V1" "honk_horn")
    (ClimateFields.mk "V1" HVACMode.off (some "start_climate")) []).2
    "start_climate" rfl (by decide)
  simpa using h

/-- C7: every value-read property is total on snapshots missing category keys
or missing the entity's VIN: when the relevant lookups come back empty the
properties return their defined fallbacks (`None`, the last commanded mode, or
the base attribute dict) — no lookup can raise, since every access goes through
`.get` with a default. -/
theorem claim_C7 (em : StatusObj → List (String × PyVal))
    (extractRaw : StatusObj → PyVal) (lastResult : String → String → PyVal)
    (d : CoordData) (stc : ClimateFields) (stt : TelemetrySensorFields)
    (stm : MetricSensorFields)
    (hh : dget (coordGet d "hvac") stc.vin = Option.none)
    (hr : dget (coordGet d "realtime") stc.vin = Option.none)
    (hlc : stc.last_command = Option.none)
    (htel : dget (if stt.description.source_key == "vehicle" then
        coordGet d "vehicles" else coordGet d stt.description.source_key)
        stt.vin = Option.none)
    (hmet : dget (if stm.source_key == "vehicle" then coordGet d "vehicles"
        else coordGet d stm.source_key) stm.vin = Option.none) :
    (BydClimate.hvac_mode stc d).1 = stc.last_mode ∧
    (BydClimate.current_temperature stc d).1 = PyVal.none ∧
    (BydClimate.target_temperature stc d).1 = PyVal.none ∧
    (BydClimate.extra_state_attributes lastResult stc d).1 =
      [("vin", PyVal.str stc.vin)] ∧
    (BydTelemetrySensor.native_value em stt d).1 = PyVal.none ∧
    (BydTelemetrySensor.extra_state_attributes stt d).1 =
      [("vin", PyVal.str stt.vin),
       ("category", PyVal.str stt.description.category),
       ("field", PyVal.str stt.description.key)] ∧
    (BydMetricSensor.native_value em stm d).1 = PyVal.none ∧
    (BydMetricSensor.extra_state_attributes extractRaw stm d).1 =
      [("vin", PyVal.str stm.vin),
       ("category", PyVal.str stm.category),
       ("field", PyVal.str stm.field)] := by
  have hgs : BydClimate.get_hvac_status d stc.vin = Option.none := by
    simp [BydClimate.get_hvac_status, hh]
  refine ⟨?_, ?_, ?_, ?_, ?_, rfl, ?_, ?_⟩
  · simp [BydClimate.hvac_mode, hgs]
  · simp [BydClimate.current_temperature, hgs, hr]
  · simp [BydClimate.target_temperature, hgs]
  · simp [BydClimate.extra_state_attributes, hgs, hlc]
  · have htel' : dget (if stt.description.source_key = "vehicle" then
        coordGet d "vehicles" else coordGet d stt.description.source_key)
        stt.vin = Option.none := by simpa using htel
    simp [BydTelemetrySensor.native_value, htel']
  · have hmet' : dget (if stm.source_key = "vehicle" then coordGet d "vehicles"
        else coordGet d stm.source_key) stm.vin = Option.none := by
      simpa using hmet
    simp [BydMetricSensor.native_value, hmet']
  · have hmet' : dget (if stm.source_key = "vehicle" then coordGet d "vehicles"
        else coordGet d stm.source_key) stm.vin = Option.none := by
      simpa using hmet
    simp [BydMetricSensor.extra_state_attributes, hmet', pyTruthy]

/-- Witness for C7 on the empty snapshot (every category key missing). -/
theorem claim_C7_witness :
    (BydClimate.hvac_mode (ClimateFields.mk "V1" HVACMode.heat_cool Option.none)
        []).1 = HVACMode.heat_cool ∧
    (BydMetricSensor.native_value (fun _ => [])
        (MetricSensorFields.mk "V1" "realtime" "speed" "realtime") []).1 =
      PyVal.none := by
  have h := claim_C7 (fun _ => []) (fun _ => PyVal.none) (fun _ _ => PyVal.none) []
    (ClimateFields.mk "V1" HVACMode.heat_cool Option.none)
    (TelemetrySensorFields.mk "V1"
      (BydSensorDescription.mk "speed" "Speed" "realtime" "realtime"
        (some "km/h") (some "speed") (some "measurement")))
    (MetricSensorFields.mk "V1" "realtime" "speed" "realtime")
    rfl rfl rfl rfl rfl
  exact ⟨h.1, h.2.2.2.2.2.2.1⟩

/-- `BydClimate.init` is determined by the VIN. -/
theorem climate_init_injective : Function.Injective BydClimate.init := by
  intro a b h
  simpa [BydClimate.init] using congrArg ClimateFields.vin h

/-- No switch rows are produced for a VIN absent from the vehicle map. -/
theorem switch_count_zero (vm : VinMap) (vin cmd : String)
    (hv : vin ∉ vm.map (fun p => p.1)) :
    (vm.flatMap (fun p =>
      [SwitchFields.mk p.1 "flash_lights", SwitchFields.mk p.1 "honk_horn",
       SwitchFields.mk p.1 "open_trunk", SwitchFields.mk p.1 "close_windows"])).count
      (SwitchFields.mk vin cmd) = 0 := by
  induction vm with
  | nil => rfl
  | cons p rest ih =>
    simp only [List.map_cons, List.mem_cons] at hv
    push_neg at hv
    have h1 : p.1 ≠ vin := Ne.symm hv.1
    simp [List.flatMap_cons, List.count_append, List.count_cons, ih hv.2,
      SwitchFields.mk.injEq, h1]

/-- With distinct VINs, exactly one switch row per (present VIN, listed command). -/
theorem switch_count_one (vm : VinMap) (vin cmd : String)
    (hcmd : cmd ∈ SWITCH_COMMANDS)
    (hnd : (vm.map (fun p => p.1)).Nodup)
    (hv : vin ∈ vm.map (fun p => p.1)) :
    (vm.flatMap (fun p =>
      [SwitchFields.mk p.1 "flash_lights", SwitchFields.mk p.1 "honk_horn",
       SwitchFields.mk p.1 "open_trunk", SwitchFields.mk p.1 "close_windows"])).count
      (SwitchFields.mk vin cmd) = 1 := by
  induction vm with
  | nil => simp at hv
  | cons p rest ih =>
    simp only [List.map_cons, List.nodup_cons] at hnd
    simp only [List.map_cons, List.mem_cons] at hv
    rcases hv with he | hr
    · subst he
      have hz := switch_count_zero rest p.1 cmd hnd.1
      simp only [SWITCH_COMMANDS, List.mem_cons, List.not_mem_nil, or_false] at hcmd
      rcases hcmd with rfl | rfl | rfl | rfl <;>
        simp [List.flatMap_cons, List.count_append, List.count_cons, hz,
          SwitchFields.mk.injEq]
    · have h1 : p.1 ≠ vin := by
        intro h
        exact hnd.1 (h ▸ hr)
      simp [List.flatMap_cons, List.count_append, List.count_cons, ih hnd.2 hr,
        SwitchFields.mk.injEq, h1]

/-- C6: for every VIN in the coordinator's `vehicles` mapping (distinct keys, as
in a dict), setup constructs exactly one `BydClimate` and exactly one
`BydMomentarySwitch` per command in `flash_lights`, `honk_horn`, `open_trunk`,
`close_windows`; and every constructed entity belongs to a VIN present in the
mapping. -/
theorem claim_C6 (d : CoordData)
    (hnd : ((coordGet d "vehicles").map (fun p => p.1)).Nodup) :
    (∀ vin ∈ (coordGet d "vehicles").map (fun p => p.1),
      (BydClimate.async_setup_entry d).count (BydClimate.init vin) = 1 ∧
      ∀ cmd ∈ SWITCH_COMMANDS,
        (BydMomentarySwitch.async_setup_entry d).count (SwitchFields.mk vin cmd) = 1) ∧
    (∀ e ∈ BydClimate.async_setup_entry d,
      e.vin ∈ (coordGet d "vehicles").map (fun p => p.1)) ∧
    (∀ sw ∈ BydMomentarySwitch.async_setup_entry d,
      sw.vin ∈ (coordGet d "vehicles").map (fun p => p.1) ∧
      sw.command ∈ SWITCH_COMMANDS) := by
  refine ⟨?_, ?_, ?_⟩
  · intro vin hv
    constructor
    · have hmm : BydClimate.async_setup_entry d =
          ((coordGet d "vehicles").map (fun p => p.1)).map BydClimate.init := by
        simp only [BydClimate.async_setup_entry, List.map_map]
        rfl
      rw [hmm, List.count_map_of_injective _ _ climate_init_injective]
      exact List.count_eq_one_of_mem hnd hv
    · intro cmd hcmd
      exact switch_count_one _ vin cmd hcmd hnd hv
  · intro e he
    simp only [BydClimate.async_setup_entry, List.mem_map] at he
    obtain ⟨p, hp, rfl⟩ := he
    exact List.mem_map.mpr ⟨p, hp, rfl⟩
  · intro sw hsw
    simp only [BydMomentarySwitch.async_setup_entry, List.mem_flatMap] at hsw
    obtain ⟨p, hp, hm⟩ := hsw
    simp only [List.mem_cons, List.not_mem_nil, or_false] at hm
    have hvin : sw.vin = p.1 := by
      rcases hm with rfl | rfl | rfl | rfl <;> rfl
    constructor
    · exact hvin ▸ List.mem_map.mpr ⟨p, hp, rfl⟩
    · rcases hm with rfl | rfl | rfl | rfl <;> simp [SWITCH_COMMANDS]

/-- Witness for C6 on a two-vehicle snapshot. -/
theorem claim_C6_witness :
    (BydClimate.async_setup_entry
        [("vehicles", [("V1", StatusObj.obj []), ("V2", StatusObj.obj [])])]).count
      (BydClimate.init "V1") = 1 ∧
    (BydMomentarySwitch.async_setup_entry
        [("vehicles", [("V1", StatusObj.obj []), ("V2", StatusObj.obj [])])]).count
      (SwitchFields.mk "V2" "open_trunk") = 1 := by
  have h := claim_C6
    [("vehicles", [("V1", StatusObj.obj []), ("V2", StatusObj.obj [])])] (by decide)
  refine ⟨(h.1 "V1" (by decide)).1, (h.1 "V2" (by decide)).2 "open_trunk" (by decide)⟩

/-- Membership characterization of dynamic metric sensors in the sensor setup
pass. -/
theorem metric_mem_setup_iff (em : StatusObj → List (String × PyVal))
    (d : CoordData) (vin cat field sk : String) :
    SensorEntity.metric (MetricSensorFields.mk vin cat field sk) ∈
        sensor_async_setup_entry em d ↔
      (vin ∈ (coordGet d "vehicles").map (fun p => p.1) ∧
       ∃ src : VinMap, (cat, sk, src) ∈ sensorSources d ∧
         field ∈ metricFieldNames em src vin ∧
         field ∉ explicitFieldsOf sk) := by
  constructor
  · intro hmem
    simp only [sensor_async_setup_entry, List.mem_flatMap, List.mem_append] at hmem
    obtain ⟨p, hp, hin⟩ := hmem
    rcases hin with hexp | hdyn
    · simp only [List.mem_map] at hexp
      obtain ⟨dsc, _, habs⟩ := hexp
      cases habs
    · obtain ⟨t, ht, hfm⟩ := hdyn
      obtain ⟨tc, tsk, tsrc⟩ := t
      simp only [List.mem_map, List.mem_filter] at hfm
      obtain ⟨f', ⟨hf'mem, hf'keep⟩, heq⟩ := hfm
      simp only [SensorEntity.metric.injEq, MetricSensorFields.mk.injEq] at heq
      obtain ⟨h1, h2, h3, h4⟩ := heq
      subst h1; subst h2; subst h3; subst h4
      refine ⟨List.mem_map.mpr ⟨p, hp, rfl⟩, tsrc, ht, hf'mem, ?_⟩
      simpa using hf'keep
  · rintro ⟨hvin, src, hsrc, hfield, hnotex⟩
    obtain ⟨p, hp, hpeq⟩ := List.mem_map.mp hvin
    simp only [sensor_async_setup_entry, List.mem_flatMap]
    refine ⟨p, hp, List.mem_append_right _ ?_⟩
    simp only [List.mem_flatMap]
    refine ⟨(cat, sk, src), hsrc, ?_⟩
    simp only [List.mem_map, List.mem_filter]
    exact ⟨field, ⟨hpeq ▸ hfield, by simpa using hnotex⟩, by rw [hpeq]⟩

/-- Membership characterization of explicit telemetry sensors in the sensor
setup pass. -/
theorem telemetry_mem_setup_iff (em : StatusObj → List (String × PyVal))
    (d : CoordData) (vin : String) (dsc : BydSensorDescription) :
    SensorEntity.telemetry (TelemetrySensorFields.mk vin dsc) ∈
        sensor_async_setup_entry em d ↔
      (vin ∈ (coordGet d "vehicles").map (fun p => p.1) ∧
       dsc ∈ EXPLICIT_SENSORS) := by
  constructor
  · intro hmem
    simp only [sensor_async_setup_entry, List.mem_flatMap, List.mem_append] at hmem
    obtain ⟨p, hp, hin⟩ := hmem
    rcases hin with hexp | hdyn
    · simp only [List.mem_map] at hexp
      obtain ⟨dsc0, hdsc0, heq⟩ := hexp
      simp only [SensorEntity.telemetry.injEq, TelemetrySensorFields.mk.injEq] at heq
      obtain ⟨h1, h2⟩ := heq
      subst h1; subst h2
      exact ⟨List.mem_map.mpr ⟨p, hp, rfl⟩, hdsc0⟩
    · simp only [List.mem_flatMap, List.mem_map, List.mem_filter] at hdyn
      obtain ⟨t, _, f', _, habs⟩ := hdyn
      cases habs
  · rintro ⟨hvin, hdsc⟩
    obtain ⟨p, hp, hpeq⟩ := List.mem_map.mp hvin
    simp only [sensor_async_setup_entry, List.mem_flatMap]
    refine ⟨p, hp, List.mem_append_left _ ?_⟩
    exact List.mem_map.mpr ⟨dsc, hdsc, by rw [hpeq]⟩

/-- C5: during sensor setup a dynamic `BydMetricSensor` is created for a VIN,
category and field exactly when the VIN is in the vehicle map, the field is
discovered by `expand_metrics` on that category's status object, and the field
is not among the explicit sensor keys declared for that source category in
`EXPLICIT_FIELDS_BY_SOURCE`; explicitly modeled fields are served only by
`BydTelemetrySensor` entities (every telemetry entity carries a declared
description, and no metric entity carries an explicit field). -/
theorem claim_C5 (em : StatusObj → List (String × PyVal)) (d : CoordData) :
    (∀ vin cat field sk : String,
      SensorEntity.metric (MetricSensorFields.mk vin cat field sk) ∈
          sensor_async_setup_entry em d ↔
        (vin ∈ (coordGet d "vehicles").map (fun p => p.1) ∧
         ∃ src : VinMap, (cat, sk, src) ∈ sensorSources d ∧
           field ∈ metricFieldNames em src vin ∧
           field ∉ explicitFieldsOf sk)) ∧
    (∀ st : MetricSensorFields,
      SensorEntity.metric st ∈ sensor_async_setup_entry em d →
        st.field ∉ explicitFieldsOf st.source_key) ∧
    (∀ st : TelemetrySensorFields,
      SensorEntity.telemetry st ∈ sensor_async_setup_entry em d →
        st.description ∈ EXPLICIT_SENSORS) := by
  have main := metric_mem_setup_iff em d
  refine ⟨main, ?_, ?_⟩
  · intro st hmem
    obtain ⟨v, c, f, s⟩ := st
    obtain ⟨_, _, _, _, hne⟩ := (main v c f s).mp hmem
    exact hne
  · intro st hmem
    obtain ⟨v, dsc0⟩ := st
    exact ((telemetry_mem_setup_iff em d v dsc0).mp hmem).2

/-! ### String toolkit for unique-id reasoning -/

/-- Character data of `v ++ "_" ++ s`. -/
theorem pre_data (v s : String) : (v ++ "_" ++ s).data = v.data ++ '_' :: s.data := by
  simp [String.data_append]

/-- `breakU` recovers the parts around the first underscore when the head part
has none. -/
theorem breakU_pre (v : List Char) (hv : '_' ∉ v) (s : List Char) :
    breakU (v ++ '_' :: s) = (v, some s) := by
  induction v with
  | nil => simp [breakU]
  | cons c cs ih =>
    simp only [List.mem_cons, not_or] at hv
    have hc : ¬c = '_' := fun h => hv.1 h.symm
    simp [breakU, hc, ih hv.2]

/-- `splitU` recovers the parts of `v ++ "_" ++ s` when `v` has no underscore. -/
theorem splitU_pre (v s : String) (hv : noU v) :
    splitU (v ++ "_" ++ s) = some (v, s) := by
  unfold splitU
  rw [pre_data, breakU_pre v.data hv s.data]

/-- Underscore-free prefixes make `v ++ "_" ++ s` decompositions unique. -/
theorem pre_inj {v₁ v₂ s₁ s₂ : String} (h₁ : noU v₁) (h₂ : noU v₂)
    (h : v₁ ++ "_" ++ s₁ = v₂ ++ "_" ++ s₂) : v₁ = v₂ ∧ s₁ = s₂ := by
  have h3 : some (v₂, s₂) = some (v₁, s₁) := by
    rw [← splitU_pre v₂ s₂ h₂, ← h, splitU_pre v₁ s₁ h₁]
  simp only [Option.some.injEq, Prod.mk.injEq] at h3
  exact ⟨h3.1.symm, h3.2.symm⟩

/-- Every `v ++ "_" ++ s` contains an underscore. -/
theorem pre_mem_underscore (v s : String) : '_' ∈ (v ++ "_" ++ s).data := by
  rw [pre_data]
  simp

/-- An underscore-free string is never of the form `v ++ "_" ++ s`. -/
theorem pre_ne_noU {w : String} (hw : noU w) (v s : String) :
    v ++ "_" ++ s ≠ w := by
  intro h
  exact hw (h ▸ pre_mem_underscore v s)

/-- `f"{vin}_climate"` in prefix-suffix form. -/
theorem climate_unique_id_pre (v : String) :
    BydClimate.unique_id v = v ++ "_" ++ "climate" := by
  apply String.ext
  simp [BydClimate.unique_id, String.data_append]

/-- `f"{vin}_{source_key}_{key}"` in prefix-suffix form. -/
theorem telemetry_unique_id_pre (st : TelemetrySensorFields) :
    BydTelemetrySensor.unique_id st =
      st.vin ++ "_" ++ (st.description.source_key ++ "_" ++ st.description.key) := by
  apply String.ext
  simp [BydTelemetrySensor.unique_id, String.data_append]

/-- `f"{vin}_{category}_{field}"` in prefix-suffix form. -/
theorem metric_unique_id_pre (st : MetricSensorFields) :
    BydMetricSensor.unique_id st =
      st.vin ++ "_" ++ (st.category ++ "_" ++ st.field) := by
  apply String.ext
  simp [BydMetricSensor.unique_id, String.data_append]

/-! ### Facts about the static tables -/

/-- The `(source_key, key)` pairs of the explicit sensor table are distinct. -/
theorem explicit_pairs_nodup :
    ((EXPLICIT_SENSORS.map (fun dsc => (dsc.source_key, dsc.key))).Nodup) := by
  decide

/-- Every explicit description's key is registered under its source key in
`EXPLICIT_FIELDS_BY_SOURCE`. -/
theorem explicit_key_mem (dsc : BydSensorDescription)
    (h : dsc ∈ EXPLICIT_SENSORS) :
    dsc.key ∈ explicitFieldsOf dsc.source_key := by
  fin_cases h <;> decide

/-- Explicit source keys are underscore-free. -/
theorem explicit_source_noU (dsc : BydSensorDescription)
    (h : dsc ∈ EXPLICIT_SENSORS) : noU dsc.source_key := by
  fin_cases h <;> decide

/-- Explicit source keys come from the four status categories. -/
theorem explicit_source_mem (dsc : BydSensorDescription)
    (h : dsc ∈ EXPLICIT_SENSORS) :
    dsc.source_key ∈ (["realtime", "energy", "hvac", "charging"] : List String) := by
  fin_cases h <;> decide

/-- Each source tuple of the sensor setup has `source_key = category`, an
underscore-free category, drawn from the five fixed categories. -/
theorem sensorSources_spec (d : CoordData) (t : String × String × VinMap)
    (h : t ∈ sensorSources d) :
    t.2.1 = t.1 ∧ noU t.1 ∧
      t.1 ∈ (["vehicle", "realtime", "energy", "hvac", "charging"] : List String) := by
  simp only [sensorSources, List.mem_cons, List.not_mem_nil, or_false] at h
  rcases h with rfl | rfl | rfl | rfl | rfl <;>
    refine ⟨rfl, ?_, ?_⟩ <;> (dsimp only; decide)

/-- A switch command written as `head ++ "_" ++ tail` with underscore-free head
has its head among the four command heads. -/
theorem switch_cmd_head (cmd : String) (h : cmd ∈ SWITCH_COMMANDS)
    (v s : String) (hv : noU v) (heq : cmd = v ++ "_" ++ s) :
    v ∈ (["flash", "honk", "open", "close"] : List String) := by
  have hs := splitU_pre v s hv
  rw [← heq] at hs
  simp only [SWITCH_COMMANDS, List.mem_cons, List.not_mem_nil, or_false] at h
  rcases h with rfl | rfl | rfl | rfl
  · have hval : splitU "flash_lights" = some ("flash", "lights") := by decide
    rw [hval] at hs
    simp only [Option.some.injEq, Prod.mk.injEq] at hs
    rw [← hs.1]
    decide
  · have hval : splitU "honk_horn" = some ("honk", "horn") := by decide
    rw [hval] at hs
    simp only [Option.some.injEq, Prod.mk.injEq] at hs
    rw [← hs.1]
    decide
  · have hval : splitU "open_trunk" = some ("open", "trunk") := by decide
    rw [hval] at hs
    simp only [Option.some.injEq, Prod.mk.injEq] at hs
    rw [← hs.1]
    decide
  · have hval : splitU "close_windows" = some ("close", "windows") := by decide
    rw [hval] at hs
    simp only [Option.some.injEq, Prod.mk.injEq] at hs
    rw [← hs.1]
    decide

/-- Discovered metric names are distinct when `expand_metrics` returns dicts
(distinct keys). -/
theorem metricFieldNames_nodup (em : StatusObj → List (String × PyVal))
    (hem : ∀ o : StatusObj, ((em o).map (fun p => p.1)).Nodup)
    (src : VinMap) (vin : String) : (metricFieldNames em src vin).Nodup := by
  rcases hdg : dget src vin with _ | o
  · simp [metricFieldNames, hdg]
  · simpa [metricFieldNames, hdg] using hem o

/-- A climate entity from setup is the `init` of its own VIN, which is in the
vehicle map. -/
theorem clim_elim (d : CoordData) (c : ClimateFields)
    (h : c ∈ BydClimate.async_setup_entry d) :
    c = BydClimate.init c.vin ∧
      c.vin ∈ (coordGet d "vehicles").map (fun p => p.1) := by
  simp only [BydClimate.async_setup_entry, List.mem_map] at h
  obtain ⟨p, hp, rfl⟩ := h
  exact ⟨rfl, List.mem_map.mpr ⟨p, hp, rfl⟩⟩

/-- A switch entity from setup has a present VIN and one of the four commands. -/
theorem switch_elim (d : CoordData) (s : SwitchFields)
    (h : s ∈ BydMomentarySwitch.async_setup_entry d) :
    s.vin ∈ (coordGet d "vehicles").map (fun p => p.1) ∧
      s.command ∈ SWITCH_COMMANDS := by
  simp only [BydMomentarySwitch.async_setup_entry, List.mem_flatMap] at h
  obtain ⟨p, hp, hm⟩ := h
  simp only [List.mem_cons, List.not_mem_nil, or_false] at hm
  have hvin : s.vin = p.1 := by
    rcases hm with rfl | rfl | rfl | rfl <;> rfl
  refine ⟨hvin ▸ List.mem_map.mpr ⟨p, hp, rfl⟩, ?_⟩
  rcases hm with rfl | rfl | rfl | rfl <;> simp [SWITCH_COMMANDS]

/-! ### Nodup of the constructed entity lists -/

/-- With distinct VINs the climate entities are distinct. -/
theorem climate_setup_nodup (d : CoordData)
    (hnd : ((coordGet d "vehicles").map (fun p => p.1)).Nodup) :
    (BydClimate.async_setup_entry d).Nodup := by
  apply List.Nodup.map_on ?_ (List.Nodup.of_map _ hnd)
  intro p hp q hq hpq
  exact List.inj_on_of_nodup_map hnd hp hq (climate_init_injective hpq)

/-- With distinct VINs the switch entities are distinct. -/
theorem switch_setup_nodup (d : CoordData)
    (hnd : ((coordGet d "vehicles").map (fun p => p.1)).Nodup) :
    (BydMomentarySwitch.async_setup_entry d).Nodup := by
  rw [BydMomentarySwitch.async_setup_entry]
  apply List.nodup_flatMap.mpr
  constructor
  · intro p hp
    simp [List.nodup_cons, SwitchFields.mk.injEq]
  · have hpw : (coordGet d "vehicles").Pairwise (fun p q => p.1 ≠ q.1) :=
      List.pairwise_map.mp hnd
    apply hpw.imp
    intro p q hpq
    simp only [Function.onFun, List.Disjoint]
    intro x hx hy
    simp only [List.mem_cons, List.not_mem_nil, or_false] at hx hy
    have hxv : x.vin = p.1 := by rcases hx with rfl | rfl | rfl | rfl <;> rfl
    have hyv : x.vin = q.1 := by rcases hy with rfl | rfl | rfl | rfl <;> rfl
    exact hpq (hxv.symm.trans hyv)

/-- With distinct VINs and dict-shaped `expand_metrics` results, the sensor
entities are distinct. -/
theorem sensor_setup_nodup (em : StatusObj → List (String × PyVal)) (d : CoordData)
    (hnd : ((coordGet d "vehicles").map (fun p => p.1)).Nodup)
    (hem : ∀ o : StatusObj, ((em o).map (fun p => p.1)).Nodup) :
    (sensor_async_setup_entry em d).Nodup := by
  simp only [sensor_async_setup_entry]
  apply List.nodup_flatMap.mpr
  constructor
  · intro p hp
    apply List.Nodup.append
    · apply List.Nodup.map ?_ (List.Nodup.of_map _ explicit_pairs_nodup)
      intro a b hab
      simpa using hab
    · apply List.nodup_flatMap.mpr
      constructor
      · intro t ht
        apply List.Nodup.map
        · intro f1 f2 h12
          simpa using h12
        · exact List.Nodup.filter _ (metricFieldNames_nodup em hem t.2.2 p.1)
      · have hsrc : ((sensorSources d).map (fun t => t.1)).Nodup := by
          show (["vehicle", "realtime", "energy", "hvac", "charging"] :
            List String).Nodup
          decide
        apply (List.pairwise_map.mp hsrc).imp
        intro t u htu
        simp only [Function.onFun, List.Disjoint]
        intro x hx hy
        simp only [List.mem_map, List.mem_filter] at hx hy
        obtain ⟨f1, _, rfl⟩ := hx
        obtain ⟨f2, _, heq⟩ := hy
        simp only [SensorEntity.metric.injEq, MetricSensorFields.mk.injEq] at heq
        exact htu heq.2.1.symm
    · intro x hx hy
      simp only [List.mem_map] at hx
      obtain ⟨dsc, _, rfl⟩ := hx
      simp only [List.mem_flatMap, List.mem_map, List.mem_filter] at hy
      obtain ⟨t, _, f, _, habs⟩ := hy
      cases habs
  · have hpw : (coordGet d "vehicles").Pairwise (fun p q => p.1 ≠ q.1) :=
      List.pairwise_map.mp hnd
    apply hpw.imp
    intro p q hpq
    simp only [Function.onFun, List.Disjoint]
    intro x hx hy
    have hxv : sensorEntityVin x = p.1 := by
      rcases List.mem_append.mp hx with h | h
      · obtain ⟨dsc, _, rfl⟩ := List.mem_map.mp h
        rfl
      · simp only [List.mem_flatMap, List.mem_map, List.mem_filter] at h
        obtain ⟨t, _, f, _, rfl⟩ := h
        rfl
    have hyv : sensorEntityVin x = q.1 := by
      rcases List.mem_append.mp hy with h | h
      · obtain ⟨dsc, _, rfl⟩ := List.mem_map.mp h
        rfl
      · simp only [List.mem_flatMap, List.mem_map, List.mem_filter] at h
        obtain ⟨t, _, f, _, rfl⟩ := h
        rfl
    exact hpq (hxv.symm.trans hyv)

/-- All entities of one setup pass are distinct objects (given distinct VINs and
dict-shaped metric discovery). -/
theorem allEntities_nodup (em : StatusObj → List (String × PyVal)) (d : CoordData)
    (hnd : ((coordGet d "vehicles").map (fun p => p.1)).Nodup)
    (hem : ∀ o : StatusObj, ((em o).map (fun p => p.1)).Nodup) :
    (allEntities em d).Nodup := by
  rw [allEntities]
  apply List.Nodup.append
  · apply List.Nodup.append
    · exact List.Nodup.map (fun a b h => by simpa using h) (climate_setup_nodup d hnd)
    · exact List.Nodup.map (fun a b h => by simpa using h) (switch_setup_nodup d hnd)
    · intro x hx hy
      obtain ⟨c, _, rfl⟩ := List.mem_map.mp hx
      obtain ⟨s, _, habs⟩ := List.mem_map.mp hy
      cases habs
  · exact List.Nodup.map (fun a b h => by simpa using h)
      (sensor_setup_nodup em d hnd hem)
  · intro x hx hy
    obtain ⟨e, _, hey⟩ := List.mem_map.mp hy
    rcases List.mem_append.mp hx with h | h
    · obtain ⟨c, _, rfl⟩ := List.mem_map.mp h
      cases hey
    · obtain ⟨s, _, rfl⟩ := List.mem_map.mp h
      cases hey

/-! ### Unique-id comparisons across entity kinds -/

/-- A climate id never equals a switch id (underscore-free VINs). -/
theorem clim_ne_sw_id {v w cmd : String} (hv : noU v) (hw : noU w)
    (hcmd : cmd ∈ SWITCH_COMMANDS) :
    BydClimate.unique_id v ≠ BydMomentarySwitch.unique_id w cmd := by
  rw [climate_unique_id_pre]
  simp only [BydMomentarySwitch.unique_id]
  intro h
  obtain ⟨h1, h2⟩ := pre_inj hv hw h
  simp only [SWITCH_COMMANDS, List.mem_cons, List.not_mem_nil, or_false] at hcmd
  rcases hcmd with rfl | rfl | rfl | rfl <;> exact absurd h2 (by decide)

/-- A climate id never equals a telemetry sensor id (underscore-free VINs). -/
theorem clim_ne_tel_id {v v' : String} (dsc : BydSensorDescription)
    (hv : noU v) (hv' : noU v') :
    BydClimate.unique_id v ≠
      BydTelemetrySensor.unique_id (TelemetrySensorFields.mk v' dsc) := by
  rw [climate_unique_id_pre, telemetry_unique_id_pre]
  intro h
  obtain ⟨h1, h2⟩ := pre_inj hv hv' h
  exact pre_ne_noU (by decide : noU "climate") _ _ h2.symm

/-- A climate id never equals a metric sensor id (underscore-free VINs). -/
theorem clim_ne_met_id {v v' cat f sk : String} (hv : noU v) (hv' : noU v') :
    BydClimate.unique_id v ≠
      BydMetricSensor.unique_id (MetricSensorFields.mk v' cat f sk) := by
  rw [climate_unique_id_pre, metric_unique_id_pre]
  intro h
  obtain ⟨h1, h2⟩ := pre_inj hv hv' h
  exact pre_ne_noU (by decide : noU "climate") _ _ h2.symm

/-- A switch id never equals a telemetry sensor id. -/
theorem sw_ne_tel_id (s : SwitchFields) {v' : String} (dsc : BydSensorDescription)
    (hv : noU s.vin) (hv' : noU v') (hcmd : s.command ∈ SWITCH_COMMANDS)
    (hd : dsc ∈ EXPLICIT_SENSORS) :
    BydMomentarySwitch.unique_id s.vin s.command ≠
      BydTelemetrySensor.unique_id (TelemetrySensorFields.mk v' dsc) := by
  rw [telemetry_unique_id_pre]
  simp only [BydMomentarySwitch.unique_id]
  intro h
  obtain ⟨h1, h2⟩ := pre_inj hv hv' h
  have hhead := switch_cmd_head s.command hcmd dsc.source_key dsc.key
    (explicit_source_noU _ hd) h2
  have hskmem := explicit_source_mem _ hd
  simp only [List.mem_cons, List.not_mem_nil, or_false] at hhead hskmem
  rcases hhead with h4 | h4 | h4 | h4 <;>
    rcases hskmem with h5 | h5 | h5 | h5 <;>
      (rw [h4] at h5; exact absurd h5 (by decide))

/-- A switch id never equals a metric sensor id. -/
theorem sw_ne_met_id (s : SwitchFields) {v' cat f sk : String}
    (hv : noU s.vin) (hv' : noU v') (hcmd : s.command ∈ SWITCH_COMMANDS)
    (hnoUcat : noU cat)
    (hcatmem : cat ∈
      (["vehicle", "realtime", "energy", "hvac", "charging"] : List String)) :
    BydMomentarySwitch.unique_id s.vin s.command ≠
      BydMetricSensor.unique_id (MetricSensorFields.mk v' cat f sk) := by
  rw [metric_unique_id_pre]
  simp only [BydMomentarySwitch.unique_id]
  intro h
  obtain ⟨h1, h2⟩ := pre_inj hv hv' h
  have hhead := switch_cmd_head s.command hcmd cat f hnoUcat h2
  simp only [List.mem_cons, List.not_mem_nil, or_false] at hhead hcatmem
  rcases hhead with h4 | h4 | h4 | h4 <;>
    rcases hcatmem with h5 | h5 | h5 | h5 | h5 <;>
      (rw [h4] at h5; exact absurd h5 (by decide))

/-- Telemetry ids determine VIN and description. -/
theorem tel_tel_id {v v' : String} (dsc dsc' : BydSensorDescription)
    (hv : noU v) (hv' : noU v')
    (hd : dsc ∈ EXPLICIT_SENSORS) (hd' : dsc' ∈ EXPLICIT_SENSORS)
    (h : BydTelemetrySensor.unique_id (TelemetrySensorFields.mk v dsc) =
      BydTelemetrySensor.unique_id (TelemetrySensorFields.mk v' dsc')) :
    v = v' ∧ dsc = dsc' := by
  rw [telemetry_unique_id_pre, telemetry_unique_id_pre] at h
  dsimp only at h
  obtain ⟨h1, h2⟩ := pre_inj hv hv' h
  obtain ⟨h3, h4⟩ :=
    pre_inj (explicit_source_noU _ hd) (explicit_source_noU _ hd') h2
  exact ⟨h1, List.inj_on_of_nodup_map explicit_pairs_nodup hd hd' (by rw [h3, h4])⟩

/-- A telemetry id never equals a metric id: the metric pass excludes exactly
the explicit keys of the same source category. -/
theorem tel_ne_met_id {v v' : String} (dsc : BydSensorDescription)
    {cat f sk : String} (hv : noU v) (hv' : noU v') (hd : dsc ∈ EXPLICIT_SENSORS)
    (hnoUcat : noU cat) (hskeq : sk = cat) (hnx : f ∉ explicitFieldsOf sk) :
    BydTelemetrySensor.unique_id (TelemetrySensorFields.mk v dsc) ≠
      BydMetricSensor.unique_id (MetricSensorFields.mk v' cat f sk) := by
  rw [telemetry_unique_id_pre, metric_unique_id_pre]
  dsimp only
  intro h
  obtain ⟨h1, h2⟩ := pre_inj hv hv' h
  obtain ⟨h3, h4⟩ := pre_inj (explicit_source_noU _ hd) hnoUcat h2
  apply hnx
  rw [hskeq, ← h3, ← h4]
  exact explicit_key_mem _ hd

/-- Metric ids determine all four stored fields. -/
theorem met_met_id {v cat f sk v' cat' f' sk' : String}
    (hv : noU v) (hv' : noU v') (hnoUcat : noU cat) (hnoUcat' : noU cat')
    (hsk : sk = cat) (hsk' : sk' = cat')
    (h : BydMetricSensor.unique_id (MetricSensorFields.mk v cat f sk) =
      BydMetricSensor.unique_id (MetricSensorFields.mk v' cat' f' sk')) :
    v = v' ∧ cat = cat' ∧ f = f' ∧ sk = sk' := by
  rw [metric_unique_id_pre, metric_unique_id_pre] at h
  dsimp only at h
  obtain ⟨h1, h2⟩ := pre_inj hv hv' h
  obtain ⟨h3, h4⟩ := pre_inj hnoUcat hnoUcat' h2
  exact ⟨h1, h3, h4, by rw [hsk, hsk', h3]⟩

/-- Over underscore-free distinct VINs, the unique id determines the entity
among all entities of one setup pass. -/
theorem entityUniqueId_inj_on (em : StatusObj → List (String × PyVal))
    (d : CoordData)
    (hnu : ∀ v ∈ (coordGet d "vehicles").map (fun p => p.1), noU v) :
    ∀ x ∈ allEntities em d, ∀ y ∈ allEntities em d,
      entityUniqueId x = entityUniqueId y → x = y := by
  intro x hx y hy hid
  simp only [allEntities, List.mem_append, List.mem_map] at hx hy
  rcases hx with (⟨c, hc, rfl⟩ | ⟨s, hs, rfl⟩) | ⟨e, he, rfl⟩
  · obtain ⟨hci, hcv⟩ := clim_elim d c hc
    rcases hy with (⟨c', hc', rfl⟩ | ⟨s', hs', rfl⟩) | ⟨e', he', rfl⟩
    · obtain ⟨hci', hcv'⟩ := clim_elim d c' hc'
      have hid' : BydClimate.unique_id c.vin = BydClimate.unique_id c'.vin := hid
      rw [climate_unique_id_pre, climate_unique_id_pre] at hid'
      obtain ⟨h1, _⟩ := pre_inj (hnu _ hcv) (hnu _ hcv') hid'
      rw [hci, hci', h1]
    · obtain ⟨hsv', hscmd'⟩ := switch_elim d s' hs'
      exact absurd hid (clim_ne_sw_id (hnu _ hcv) (hnu _ hsv') hscmd')
    · cases e' with
      | telemetry st =>
        obtain ⟨v', dsc'⟩ := st
        obtain ⟨hv'm, hdsc'⟩ := (telemetry_mem_setup_iff em d v' dsc').mp he'
        exact absurd hid (clim_ne_tel_id dsc' (hnu _ hcv) (hnu _ hv'm))
      | metric st =>
        obtain ⟨v', cat', f', sk'⟩ := st
        obtain ⟨hv'm, src', hsrc', hf', hnx'⟩ :=
          (metric_mem_setup_iff em d v' cat' f' sk').mp he'
        exact absurd hid (clim_ne_met_id (hnu _ hcv) (hnu _ hv'm))
  · obtain ⟨hsv, hscmd⟩ := switch_elim d s hs
    rcases hy with (⟨c', hc', rfl⟩ | ⟨s', hs', rfl⟩) | ⟨e', he', rfl⟩
    · obtain ⟨hci', hcv'⟩ := clim_elim d c' hc'
      exact absurd hid.symm (clim_ne_sw_id (hnu _ hcv') (hnu _ hsv) hscmd)
    · obtain ⟨hsv', hscmd'⟩ := switch_elim d s' hs'
      have hid' : s.vin ++ "_" ++ s.command = s'.vin ++ "_" ++ s'.command := hid
      obtain ⟨h1, h2⟩ := pre_inj (hnu _ hsv) (hnu _ hsv') hid'
      have hss : s = s' := by
        cases s
        cases s'
        exact congrArg₂ SwitchFields.mk h1 h2
      rw [hss]
    · cases e' with
      | telemetry st =>
        obtain ⟨v', dsc'⟩ := st
        obtain ⟨hv'm, hdsc'⟩ := (telemetry_mem_setup_iff em d v' dsc').mp he'
        exact absurd hid
          (sw_ne_tel_id s dsc' (hnu _ hsv) (hnu _ hv'm) hscmd hdsc')
      | metric st =>
        obtain ⟨v', cat', f', sk'⟩ := st
        obtain ⟨hv'm, src', hsrc', hf', hnx'⟩ :=
          (metric_mem_setup_iff em d v' cat' f' sk').mp he'
        obtain ⟨hskeq', hnoUcat', hcatmem'⟩ :=
          sensorSources_spec d (cat', sk', src') hsrc'
        exact absurd hid
          (sw_ne_met_id s (hnu _ hsv) (hnu _ hv'm) hscmd hnoUcat' hcatmem')
  · rcases hy with (⟨c', hc', rfl⟩ | ⟨s', hs', rfl⟩) | ⟨e', he', rfl⟩
    · obtain ⟨hci', hcv'⟩ := clim_elim d c' hc'
      cases e with
      | telemetry st =>
        obtain ⟨v, dsc⟩ := st
        obtain ⟨hvm, hdsc⟩ := (telemetry_mem_setup_iff em d v dsc).mp he
        exact absurd hid.symm (clim_ne_tel_id dsc (hnu _ hcv') (hnu _ hvm))
      | metric st =>
        obtain ⟨v, cat, f, sk⟩ := st
        obtain ⟨hvm, src, hsrc, hf, hnx⟩ :=
          (metric_mem_setup_iff em d v cat f sk).mp he
        exact absurd hid.symm (clim_ne_met_id (hnu _ hcv') (hnu _ hvm))
    · obtain ⟨hsv', hscmd'⟩ := switch_elim d s' hs'
      cases e with
      | telemetry st =>
        obtain ⟨v, dsc⟩ := st
        obtain ⟨hvm, hdsc⟩ := (telemetry_mem_setup_iff em d v dsc).mp he
        exact absurd hid.symm
          (sw_ne_tel_id s' dsc (hnu _ hsv') (hnu _ hvm) hscmd' hdsc)
      | metric st =>
        obtain ⟨v, cat, f, sk⟩ := st
        obtain ⟨hvm, src, hsrc, hf, hnx⟩ :=
          (metric_mem_setup_iff em d v cat f sk).mp he
        obtain ⟨hskeq, hnoUcat, hcatmem⟩ :=
          sensorSources_spec d (cat, sk, src) hsrc
        exact absurd hid.symm
          (sw_ne_met_id s' (hnu _ hsv') (hnu _ hvm) hscmd' hnoUcat hcatmem)
    · cases e with
      | telemetry st =>
        obtain ⟨v, dsc⟩ := st
        obtain ⟨hvm, hdsc⟩ := (telemetry_mem_setup_iff em d v dsc).mp he
        cases e' with
        | telemetry st' =>
          obtain ⟨v', dsc'⟩ := st'
          obtain ⟨hv'm, hdsc'⟩ := (telemetry_mem_setup_iff em d v' dsc').mp he'
          obtain ⟨h1, h2⟩ :=
            tel_tel_id dsc dsc' (hnu _ hvm) (hnu _ hv'm) hdsc hdsc' hid
          rw [h1, h2]
        | metric st' =>
          obtain ⟨v', cat', f', sk'⟩ := st'
          obtain ⟨hv'm, src', hsrc', hf', hnx'⟩ :=
            (metric_mem_setup_iff em d v' cat' f' sk').mp he'
          obtain ⟨hskeq', hnoUcat', hcatmem'⟩ :=
            sensorSources_spec d (cat', sk', src') hsrc'
          exact absurd hid (tel_ne_met_id dsc (hnu _ hvm) (hnu _ hv'm) hdsc
            hnoUcat' hskeq' hnx')
      | metric st =>
        obtain ⟨v, cat, f, sk⟩ := st
        obtain ⟨hvm, src, hsrc, hf, hnx⟩ :=
          (metric_mem_setup_iff em d v cat f sk).mp he
        obtain ⟨hskeq, hnoUcat, hcatmem⟩ :=
          sensorSources_spec d (cat, sk, src) hsrc
        cases e' with
        | telemetry st' =>
          obtain ⟨v', dsc'⟩ := st'
          obtain ⟨hv'm, hdsc'⟩ := (telemetry_mem_setup_iff em d v' dsc').mp he'
          exact absurd hid.symm (tel_ne_met_id dsc' (hnu _ hv'm) (hnu _ hvm)
            hdsc' hnoUcat hskeq hnx)
        | metric st' =>
          obtain ⟨v', cat', f', sk'⟩ := st'
          obtain ⟨hv'm, src', hsrc', hf', hnx'⟩ :=
            (metric_mem_setup_iff em d v' cat' f' sk').mp he'
          obtain ⟨hskeq', hnoUcat', hcatmem'⟩ :=
            sensorSources_spec d (cat', sk', src') hsrc'
          obtain ⟨h1, h2, h3, h4⟩ := met_met_id (hnu _ hvm) (hnu _ hv'm)
            hnoUcat hnoUcat' hskeq hskeq' hid
          have h2c : cat = cat' := h2
          have h4c : sk = sk' := h4
          rw [h1, h2c, h3, h4c]

/-- The setup-pass unique ids are the ids of the setup-pass entities. -/
theorem allUniqueIds_eq_map (em : StatusObj → List (String × PyVal))
    (d : CoordData) :
    allUniqueIds em d = (allEntities em d).map entityUniqueId := by
  simp only [allUniqueIds, allEntities, List.map_append, List.map_map]
  rfl

/-- C8, counterexample: the claim as stated fails.  On `cexData` the VINs `"A"`
and `"A_hvac"` are distinct, yet the dynamic hvac metric `realtime_speed` of
`"A"` and the explicit realtime `speed` sensor of `"A_hvac"` both get the
unique id `"A_hvac_realtime_speed"`. -/
theorem claim_C8_counterexample :
    ((coordGet cexData "vehicles").map (fun p => p.1)).Nodup ∧
    ¬ (allUniqueIds cexEm cexData).Nodup := by
  constructor
  · decide
  · decide

/-- C8, amended: in a setup pass over a snapshot whose distinct VINs contain no
underscore (and whose discovered metric names per status object are distinct, as
dict keys are), all entities created across the climate, sensor, and switch
platforms have pairwise-distinct unique ids: climate `"{vin}_climate"`, switches
`"{vin}_{command}"`, explicit sensors `"{vin}_{source_key}_{key}"`, dynamic
metric sensors `"{vin}_{category}_{field}"` with explicit keys excluded from the
dynamic pass. -/
theorem claim_C8_amended (em : StatusObj → List (String × PyVal)) (d : CoordData)
    (hnd : ((coordGet d "vehicles").map (fun p => p.1)).Nodup)
    (hnu : ∀ v ∈ (coordGet d "vehicles").map (fun p => p.1), noU v)
    (hem : ∀ o : StatusObj, ((em o).map (fun p => p.1)).Nodup) :
    (allUniqueIds em d).Nodup := by
  rw [allUniqueIds_eq_map]
  exact List.Nodup.map_on (entityUniqueId_inj_on em d hnu)
    (allEntities_nodup em d hnd hem)

/-- Witness for the amended C8 on a concrete two-vehicle snapshot with one
discoverable metric per status object. -/
theorem claim_C8_amended_witness :
    (allUniqueIds (fun _ => [("doorstate", PyVal.int 0)])
      [("vehicles", [("V1", StatusObj.obj []), ("V2", StatusObj.obj [])])]).Nodup :=
  claim_C8_amended (fun _ => [("doorstate", PyVal.int 0)])
    [("vehicles", [("V1", StatusObj.obj []), ("V2", StatusObj.obj [])])]
    (by decide) (by decide) (by intro o; dsimp only; decide)

/-- Witness for C5: the hvac field `realtime_speed` of VIN `"A"` is discovered
and not explicit for hvac, so its metric sensor is created. -/
theorem claim_C5_witness :
    SensorEntity.metric (MetricSensorFields.mk "A" "hvac" "realtime_speed" "hvac") ∈
      sensor_async_setup_entry cexEm cexData :=
  ((claim_C5 cexEm cexData).1 "A" "hvac" "realtime_speed" "hvac").mpr
    ⟨by decide, coordGet cexData "hvac", by decide, by decide, by decide⟩
